import Mathlib

/-!
# Verification of the SMBIOS Type 0 (BIOS Information) decoder

Shallow embedding of `pkg/smbios/type0_bios_information.go`:
the record decoder (`NewBIOSInformation`), the ROM size computation
(`GetROMSizeBytes`), the three bit-flag renderers
(`BIOSCharacteristics.String`, `BIOSCharacteristicsExt1.String`,
`BIOSCharacteristicsExt2.String`) and the summary formatter
(`BIOSInformation.String`).

Machine integers: Go `uint8`/`uint16`/`uint64`/`uint` values are embedded
as `Nat`.  None of the arithmetic in this file can overflow a Go `uint`
(the largest product is `0x3fff * 2^30 < 2^44`), so no `% 2^64` reduction
is needed for faithfulness; Go `int` arithmetic (in the runtime-size line)
is embedded as `Int`.
-/

namespace Smbios

/-- Modelled from the spec: the raw record handed over by the external
"table source" (the generic record-stream reader, whose code is not part
of this slice): a type tag, a handle, and the raw bytes of the structured
area (header included, offsets as in the spec's byte-layout table).  The
spec's invariant "length is the authoritative count of meaningful bytes"
makes the declared length the length of `data`. -/
structure Table where
  typ : Nat
  handle : Nat
  data : List Nat
  deriving DecidableEq, Repr

/-- Modelled from the spec: `Table.Len()` of the external table type —
the declared byte length of the record. -/
def Table.Len (t : Table) : Nat := t.data.length

/-- `const TableTypeBIOSInformation TableType = 0`. -/
def TableTypeBIOSInformation : Nat := 0

/-- The `BIOSInformation` struct (field offsets in the raw record given
in the comments of the Go source).  String fields hold the externally
resolved text; the embedded `Table` is kept, as in the Go struct. -/
structure BIOSInformation where
  table : Table
  Vendor : String                                -- 04h
  Version : String                               -- 05h
  StartingAddressSegment : Nat                   -- 06h, uint16
  ReleaseDate : String                           -- 08h
  ROMSize : Nat                                  -- 09h, uint8
  Characteristics : Nat                          -- 0Ah, uint64
  CharacteristicsExt1 : Nat                      -- 12h, uint8
  CharacteristicsExt2 : Nat                      -- 13h, uint8
  SystemBIOSMajorRelease : Nat                   -- 14h, uint8
  SystemBIOSMinorRelease : Nat                   -- 15h, uint8
  EmbeddedControllerFirmwareMajorRelease : Nat   -- 16h, uint8
  EmbeddedControllerFirmwareMinorRelease : Nat   -- 17h, uint8
  ExtendedROMSize : Nat                          -- 18h, uint16
  deriving DecidableEq, Repr

/-- `bi.Len()`: promoted from the embedded `Table`. -/
def BIOSInformation.Len (bi : BIOSInformation) : Nat := bi.table.Len

/-- The two failure cases of `NewBIOSInformation`: wrong table type
(`"invalid table type %d"`) and truncated record
(`"required fields missing"`). -/
inductive DecodeError where
  | WrongType
  | TruncatedRecord
  deriving DecidableEq, Repr

/-- Modelled from the spec: a little-endian field of `width` bytes at
offset `off`, as read by the external `parseStruct` helper; a field whose
bytes lie beyond the declared length is left at the defined "absent"
value 0 rather than read. -/
def Table.fieldLE (t : Table) (off width : Nat) : Nat :=
  if off + width ≤ t.Len then
    (List.range width).foldr (fun i acc => t.data.getD (off + i) 0 + 256 * acc) 0
  else 0

/-- Modelled from the spec: the body of `parseStruct` for this record —
reads each fixed field at its canonical offset (little-endian), resolves
the vendor / version / release-date string indices through the external
string-pool resolver `resolve`, and leaves length-gated trailing fields
at the absent value 0. -/
def parseBIOSInformation (resolve : Nat → String) (t : Table) : BIOSInformation where
  table := t
  Vendor := resolve (t.fieldLE 0x04 1)
  Version := resolve (t.fieldLE 0x05 1)
  StartingAddressSegment := t.fieldLE 0x06 2
  ReleaseDate := resolve (t.fieldLE 0x08 1)
  ROMSize := t.fieldLE 0x09 1
  Characteristics := t.fieldLE 0x0a 8
  CharacteristicsExt1 := t.fieldLE 0x12 1
  CharacteristicsExt2 := t.fieldLE 0x13 1
  SystemBIOSMajorRelease := t.fieldLE 0x14 1
  SystemBIOSMinorRelease := t.fieldLE 0x15 1
  EmbeddedControllerFirmwareMajorRelease := t.fieldLE 0x16 1
  EmbeddedControllerFirmwareMinorRelease := t.fieldLE 0x17 1
  ExtendedROMSize := t.fieldLE 0x18 2

/-- `NewBIOSInformation`: rejects a wrong type tag, then a record shorter
than 0x12 bytes, then parses.  The string-pool resolver is the external
collaborator, passed as `resolve`. -/
def NewBIOSInformation (resolve : Nat → String) (t : Table) :
    Except DecodeError BIOSInformation :=
  if t.typ ≠ TableTypeBIOSInformation then .error .WrongType
  else if t.Len < 0x12 then .error .TruncatedRecord
  else .ok (parseBIOSInformation resolve t)

/-- `GetROMSizeBytes`: legacy 64 KB encoding unless `ROMSize = 0xff`, in
which case the extended 16-bit value (or the fallback 0x10 for records
shorter than 0x1a) is split into a 2-bit unit and 14-bit magnitude. -/
def BIOSInformation.GetROMSizeBytes (bi : BIOSInformation) : Nat :=
  if bi.ROMSize ≠ 0xff then 65536 * (bi.ROMSize + 1)
  else
    let extSize : Nat := if bi.Len ≥ 0x1a then bi.ExtendedROMSize else 0x10
    let unit := extSize >>> 14
    let multiplier : Nat :=
      match unit with
      | 0 => 1024 * 1024
      | 1 => 1024 * 1024 * 1024
      | _ => 1
    (extSize &&& 0x3fff) * multiplier

/-- The line list built by `BIOSCharacteristics.String`: one conditional
append per defined bit, in source order (bit 0 first).  Each mask
`1 <<< k` is the Go constant for that bit (e.g.
`BIOSCharacteristicsISAIsSupported = 1 << 4`). -/
def charLines (v : Nat) : List String :=
  let lines : List String := []
  let lines := if v &&& (1 <<< 0) != 0 then lines ++ ["\t\tReserved"] else lines
  let lines := if v &&& (1 <<< 1) != 0 then lines ++ ["\t\tReserved"] else lines
  let lines := if v &&& (1 <<< 2) != 0 then lines ++ ["\t\tUnknown"] else lines
  let lines := if v &&& (1 <<< 3) != 0 then lines ++ ["\t\tBIOS characteristics not supported"] else lines
  let lines := if v &&& (1 <<< 4) != 0 then lines ++ ["\t\tISA is supported"] else lines
  let lines := if v &&& (1 <<< 5) != 0 then lines ++ ["\t\tMCA is supported"] else lines
  let lines := if v &&& (1 <<< 6) != 0 then lines ++ ["\t\tEISA is supported"] else lines
  let lines := if v &&& (1 <<< 7) != 0 then lines ++ ["\t\tPCI is supported"] else lines
  let lines := if v &&& (1 <<< 8) != 0 then lines ++ ["\t\tPC Card (PCMCIA) is supported"] else lines
  let lines := if v &&& (1 <<< 9) != 0 then lines ++ ["\t\tPNP is supported"] else lines
  let lines := if v &&& (1 <<< 10) != 0 then lines ++ ["\t\tAPM is supported"] else lines
  let lines := if v &&& (1 <<< 11) != 0 then lines ++ ["\t\tBIOS is upgradeable"] else lines
  let lines := if v &&& (1 <<< 12) != 0 then lines ++ ["\t\tBIOS shadowing is allowed"] else lines
  let lines := if v &&& (1 <<< 13) != 0 then lines ++ ["\t\tVLB is supported"] else lines
  let lines := if v &&& (1 <<< 14) != 0 then lines ++ ["\t\tESCD support is available"] else lines
  let lines := if v &&& (1 <<< 15) != 0 then lines ++ ["\t\tBoot from CD is supported"] else lines
  let lines := if v &&& (1 <<< 16) != 0 then lines ++ ["\t\tSelectable boot is supported"] else lines
  let lines := if v &&& (1 <<< 17) != 0 then lines ++ ["\t\tBIOS ROM is socketed"] else lines
  let lines := if v &&& (1 <<< 18) != 0 then lines ++ ["\t\tBoot from PC Card (PCMCIA) is supported"] else lines
  let lines := if v &&& (1 <<< 19) != 0 then lines ++ ["\t\tEDD is supported"] else lines
  let lines := if v &&& (1 <<< 20) != 0 then lines ++ ["\t\tJapanese floppy for NEC 9800 1.2 MB is supported (int 13h)"] else lines
  let lines := if v &&& (1 <<< 21) != 0 then lines ++ ["\t\tJapanese floppy for Toshiba 1.2 MB is supported (int 13h)"] else lines
  let lines := if v &&& (1 <<< 22) != 0 then lines ++ ["\t\t5.25\"/360 kB floppy services are supported (int 13h)"] else lines
  let lines := if v &&& (1 <<< 23) != 0 then lines ++ ["\t\t5.25\"/1.2 MB floppy services are supported (int 13h)"] else lines
  let lines := if v &&& (1 <<< 24) != 0 then lines ++ ["\t\t3.5\"/720 kB floppy services are supported (int 13h)"] else lines
  let lines := if v &&& (1 <<< 25) != 0 then lines ++ ["\t\t3.5\"/2.88 MB floppy services are supported (int 13h)"] else lines
  let lines := if v &&& (1 <<< 26) != 0 then lines ++ ["\t\tPrint screen service is supported (int 5h)"] else lines
  let lines := if v &&& (1 <<< 27) != 0 then lines ++ ["\t\t8042 keyboard services are supported (int 9h)"] else lines
  let lines := if v &&& (1 <<< 28) != 0 then lines ++ ["\t\tSerial services are supported (int 14h)"] else lines
  let lines := if v &&& (1 <<< 29) != 0 then lines ++ ["\t\tPrinter services are supported (int 17h)"] else lines
  let lines := if v &&& (1 <<< 30) != 0 then lines ++ ["\t\tCGA/mono video services are supported (int 10h)"] else lines
  let lines := if v &&& (1 <<< 31) != 0 then lines ++ ["\t\tNEC PC-98"] else lines
  lines

/-- `BIOSCharacteristics.String`: the lines joined with newlines. -/
def BIOSCharacteristicsString (v : Nat) : String :=
  String.intercalate "\n" (charLines v)

/-- The line list built by `BIOSCharacteristicsExt1.String`, bit 0
(`ACPI`) through bit 7 (`Smart battery`) in source order. -/
def ext1Lines (v : Nat) : List String :=
  let lines : List String := []
  let lines := if v &&& (1 <<< 0) != 0 then lines ++ ["\t\tACPI is supported"] else lines
  let lines := if v &&& (1 <<< 1) != 0 then lines ++ ["\t\tUSB legacy is supported"] else lines
  let lines := if v &&& (1 <<< 2) != 0 then lines ++ ["\t\tAGP is supported"] else lines
  let lines := if v &&& (1 <<< 3) != 0 then lines ++ ["\t\tI2O boot is supported"] else lines
  let lines := if v &&& (1 <<< 4) != 0 then lines ++ ["\t\tLS-120 boot is supported"] else lines
  let lines := if v &&& (1 <<< 5) != 0 then lines ++ ["\t\tATAPI Zip drive boot is supported"] else lines
  let lines := if v &&& (1 <<< 6) != 0 then lines ++ ["\t\tIEEE 1394 boot is supported"] else lines
  let lines := if v &&& (1 <<< 7) != 0 then lines ++ ["\t\tSmart battery is supported"] else lines
  lines

/-- `BIOSCharacteristicsExt1.String`: the lines joined with newlines. -/
def BIOSCharacteristicsExt1String (v : Nat) : String :=
  String.intercalate "\n" (ext1Lines v)

/-- The line list built by `BIOSCharacteristicsExt2.String`, bit 0
(`BIOS boot specification`) through bit 4 (`virtual machine`) in source
order; bits 5–7 are undefined and never tested. -/
def ext2Lines (v : Nat) : List String :=
  let lines : List String := []
  let lines := if v &&& (1 <<< 0) != 0 then lines ++ ["\t\tBIOS boot specification is supported"] else lines
  let lines := if v &&& (1 <<< 1) != 0 then lines ++ ["\t\tFunction key-initiated network boot is supported"] else lines
  let lines := if v &&& (1 <<< 2) != 0 then lines ++ ["\t\tTargeted content distribution is supported"] else lines
  let lines := if v &&& (1 <<< 3) != 0 then lines ++ ["\t\tUEFI is supported"] else lines
  let lines := if v &&& (1 <<< 4) != 0 then lines ++ ["\t\tSystem is a virtual machine"] else lines
  lines

/-- `BIOSCharacteristicsExt2.String`: the lines joined with newlines. -/
def BIOSCharacteristicsExt2String (v : Nat) : String :=
  String.intercalate "\n" (ext2Lines v)

/-- Specification form (following the spec's words): a renderer owns a
fixed, spec-ordered table mapping bit position to description text and
emits, in table order, the description of every set bit. -/
def renderTable (tbl : List (Nat × String)) (v : Nat) : List String :=
  (tbl.filter fun p => v &&& (1 <<< p.1) != 0).map Prod.snd

/-- Specification form: the spec-declared table of the primary
characteristics vector, bit 0 through bit 31. -/
def charTable : List (Nat × String) :=
  [(0, "\t\tReserved"),
   (1, "\t\tReserved"),
   (2, "\t\tUnknown"),
   (3, "\t\tBIOS characteristics not supported"),
   (4, "\t\tISA is supported"),
   (5, "\t\tMCA is supported"),
   (6, "\t\tEISA is supported"),
   (7, "\t\tPCI is supported"),
   (8, "\t\tPC Card (PCMCIA) is supported"),
   (9, "\t\tPNP is supported"),
   (10, "\t\tAPM is supported"),
   (11, "\t\tBIOS is upgradeable"),
   (12, "\t\tBIOS shadowing is allowed"),
   (13, "\t\tVLB is supported"),
   (14, "\t\tESCD support is available"),
   (15, "\t\tBoot from CD is supported"),
   (16, "\t\tSelectable boot is supported"),
   (17, "\t\tBIOS ROM is socketed"),
   (18, "\t\tBoot from PC Card (PCMCIA) is supported"),
   (19, "\t\tEDD is supported"),
   (20, "\t\tJapanese floppy for NEC 9800 1.2 MB is supported (int 13h)"),
   (21, "\t\tJapanese floppy for Toshiba 1.2 MB is supported (int 13h)"),
   (22, "\t\t5.25\"/360 kB floppy services are supported (int 13h)"),
   (23, "\t\t5.25\"/1.2 MB floppy services are supported (int 13h)"),
   (24, "\t\t3.5\"/720 kB floppy services are supported (int 13h)"),
   (25, "\t\t3.5\"/2.88 MB floppy services are supported (int 13h)"),
   (26, "\t\tPrint screen service is supported (int 5h)"),
   (27, "\t\t8042 keyboard services are supported (int 9h)"),
   (28, "\t\tSerial services are supported (int 14h)"),
   (29, "\t\tPrinter services are supported (int 17h)"),
   (30, "\t\tCGA/mono video services are supported (int 10h)"),
   (31, "\t\tNEC PC-98")]

/-- Specification form: the spec-declared table of extension byte 1. -/
def ext1Table : List (Nat × String) :=
  [(0, "\t\tACPI is supported"),
   (1, "\t\tUSB legacy is supported"),
   (2, "\t\tAGP is supported"),
   (3, "\t\tI2O boot is supported"),
   (4, "\t\tLS-120 boot is supported"),
   (5, "\t\tATAPI Zip drive boot is supported"),
   (6, "\t\tIEEE 1394 boot is supported"),
   (7, "\t\tSmart battery is supported")]

/-- Specification form: the spec-declared table of extension byte 2
(only bits 0–4 are defined). -/
def ext2Table : List (Nat × String) :=
  [(0, "\t\tBIOS boot specification is supported"),
   (1, "\t\tFunction key-initiated network boot is supported"),
   (2, "\t\tTargeted content distribution is supported"),
   (3, "\t\tUEFI is supported"),
   (4, "\t\tSystem is a virtual machine")]

/-- One line of the summary built by `BIOSInformation.String`; each
constructor is one `fmt.Sprintf` of the Go method, carrying the values
interpolated into it (the flag-vector elements carry the raw vector,
rendered by the corresponding flag renderer). -/
inductive SummaryLine where
  | header (t : Table)
  | vendor (s : String)
  | version (s : String)
  | releaseDate (s : String)
  | address (seg : Nat)
  | runtimeSize (kb : Int)
  | romSizeB (n : Nat)
  | romSizeKB (n : Nat)
  | romSizeMB (n : Nat)
  | romSizeGB (n : Nat)
  | characteristics (v : Nat)
  | charsExt1 (v : Nat)
  | charsExt2 (v : Nat)
  | biosRevision (maj minor : Nat)
  | firmwareRevision (maj minor : Nat)
  deriving DecidableEq, Repr

/-- The `switch` on the ROM byte count in `BIOSInformation.String`:
bytes below 1024, kB below 1024², MB below 1024³, GB otherwise, the
displayed value integer-divided accordingly. -/
def romSizeLine (bs : Nat) : SummaryLine :=
  if bs < 1024 then .romSizeB bs
  else if bs < 1024 * 1024 then .romSizeKB (bs / 1024)
  else if bs < 1024 * 1024 * 1024 then .romSizeMB (bs / 1024 / 1024)
  else .romSizeGB (bs / 1024 / 1024 / 1024)

/-- The line sequence of `BIOSInformation.String`: header, vendor,
version, release date; address and runtime size only for a nonzero
starting segment (the runtime size computed in Go `int` arithmetic);
the ROM size line; the three flag-vector reports; the BIOS and firmware
revision lines gated by record length and the 0xff sentinel. -/
def BIOSInformation.summaryLines (bi : BIOSInformation) : List SummaryLine :=
  let lines : List SummaryLine :=
    [.header bi.table, .vendor bi.Vendor, .version bi.Version,
     .releaseDate bi.ReleaseDate]
  let lines :=
    if bi.StartingAddressSegment ≠ 0 then
      lines ++ [.address bi.StartingAddressSegment,
        .runtimeSize (((0x10000 - (bi.StartingAddressSegment : Int)) <<< 4) / 1024)]
    else lines
  let bs := bi.GetROMSizeBytes
  let lines := lines ++ [romSizeLine bs]
  let lines := lines ++ [.characteristics bi.Characteristics,
    .charsExt1 bi.CharacteristicsExt1, .charsExt2 bi.CharacteristicsExt2]
  let lines :=
    if 0x16 ≤ bi.Len ∧ bi.SystemBIOSMajorRelease ≠ 0xff then
      lines ++ [.biosRevision bi.SystemBIOSMajorRelease bi.SystemBIOSMinorRelease]
    else lines
  let lines :=
    if 0x18 ≤ bi.Len ∧ bi.EmbeddedControllerFirmwareMajorRelease ≠ 0xff then
      lines ++ [.firmwareRevision bi.EmbeddedControllerFirmwareMajorRelease
        bi.EmbeddedControllerFirmwareMinorRelease]
    else lines
  lines

/-- Recognises the starting-address line. -/
def SummaryLine.isAddressLine : SummaryLine → Bool
  | .address _ => true
  | _ => false

/-- Recognises the runtime-size line. -/
def SummaryLine.isRuntimeSizeLine : SummaryLine → Bool
  | .runtimeSize _ => true
  | _ => false

/-- Recognises the ROM-size line in any of its four units. -/
def SummaryLine.isRomSizeLine : SummaryLine → Bool
  | .romSizeB _ => true
  | .romSizeKB _ => true
  | .romSizeMB _ => true
  | .romSizeGB _ => true
  | _ => false

/-- Recognises the BIOS-revision line. -/
def SummaryLine.isBiosRevisionLine : SummaryLine → Bool
  | .biosRevision _ _ => true
  | _ => false

end Smbios

namespace Smbios

/-- A trivial string-pool resolver for concrete test records. -/
def resolve0 : Nat → String := fun _ => ""

/-- A concrete decoded record used as a witness input: `ROMSize = 0xff`,
record length `0x1a`, `ExtendedROMSize = 0x4010`. -/
def biExt : BIOSInformation where
  table := ⟨0, 0, List.replicate 0x1a 0⟩
  Vendor := ""
  Version := ""
  StartingAddressSegment := 0xE000
  ReleaseDate := ""
  ROMSize := 0xff
  Characteristics := 0
  CharacteristicsExt1 := 0
  CharacteristicsExt2 := 0
  SystemBIOSMajorRelease := 1
  SystemBIOSMinorRelease := 2
  EmbeddedControllerFirmwareMajorRelease := 3
  EmbeddedControllerFirmwareMinorRelease := 4
  ExtendedROMSize := 0x4010

end Smbios

namespace Smbios

/-- **C1** For every decoded record with `ROMSize = 0xff` and record
length ≥ 0x1a, `GetROMSizeBytes` decodes the 16-bit `ExtendedROMSize` as
`unit = value >>> 14`, `magnitude = value &&& 0x3fff`, with multiplier
2^20 for unit 0, 2^30 for unit 1, and 1 for the reserved units 2 and 3;
in particular `ExtendedROMSize = 0x4010` yields `16 * 1073741824`. -/
theorem getROMSizeBytes_extended (bi : BIOSInformation)
    (hrom : bi.ROMSize = 0xff) (hlen : 0x1a ≤ bi.Len)
    (hext : bi.ExtendedROMSize < 0x10000) :
    bi.GetROMSizeBytes =
      (bi.ExtendedROMSize &&& 0x3fff) *
        (if bi.ExtendedROMSize >>> 14 = 0 then 1048576
         else if bi.ExtendedROMSize >>> 14 = 1 then 1073741824
         else 1) ∧
    (bi.ExtendedROMSize = 0x4010 → bi.GetROMSizeBytes = 16 * 1073741824) := by
  have hunit : bi.ExtendedROMSize >>> 14 < 4 := by
    rw [Nat.shiftRight_eq_div_pow]
    omega
  constructor
  · unfold BIOSInformation.GetROMSizeBytes
    rw [if_neg (by simp [hrom]), if_pos hlen]
    interval_cases h : (bi.ExtendedROMSize >>> 14) <;> simp [h]
  · intro h4010
    unfold BIOSInformation.GetROMSizeBytes
    rw [if_neg (by simp [hrom]), if_pos hlen, h4010]
    decide

/-- Witness for `getROMSizeBytes_extended` at the concrete record
`biExt`. -/
theorem getROMSizeBytes_extended_witness :
    biExt.GetROMSizeBytes = 16 * 1073741824 := by
  have h := getROMSizeBytes_extended biExt (by decide) (by decide) (by decide)
  exact h.2 (by decide)

/-- **C2** For every decoded record with `ROMSize = 0xff` and record
length < 0x1a, `GetROMSizeBytes` uses the fallback extended value 0x10
(unit 0, megabytes) and returns exactly 16777216 bytes. -/
theorem getROMSizeBytes_fallback (bi : BIOSInformation)
    (hrom : bi.ROMSize = 0xff) (hlen : bi.Len < 0x1a) :
    bi.GetROMSizeBytes = 16777216 := by
  unfold BIOSInformation.GetROMSizeBytes
  rw [if_neg (by simp [hrom]), if_neg (by omega)]
  decide

/-- Witness for `getROMSizeBytes_fallback` at a concrete record of
length 0x12. -/
theorem getROMSizeBytes_fallback_witness :
    ({ biExt with
        table := ⟨0, 0, List.replicate 0x12 0⟩
        ExtendedROMSize := 0 } : BIOSInformation).GetROMSizeBytes
      = 16777216 :=
  getROMSizeBytes_fallback _ (by decide) (by decide)

/-- **C3** For every decoded record with `ROMSize ≠ 0xff`,
`GetROMSizeBytes` returns `65536 * (ROMSize + 1)` bytes, regardless of
record length and `ExtendedROMSize`; in particular `ROMSize = 0x00`
yields 65536 and `ROMSize = 0x10` yields 1114112. -/
theorem getROMSizeBytes_legacy (bi : BIOSInformation)
    (hrom : bi.ROMSize ≠ 0xff) :
    bi.GetROMSizeBytes = 65536 * (bi.ROMSize + 1) ∧
    (bi.ROMSize = 0x00 → bi.GetROMSizeBytes = 65536) ∧
    (bi.ROMSize = 0x10 → bi.GetROMSizeBytes = 1114112) := by
  have h : bi.GetROMSizeBytes = 65536 * (bi.ROMSize + 1) := by
    unfold BIOSInformation.GetROMSizeBytes
    rw [if_pos hrom]
  exact ⟨h, fun h0 => by rw [h, h0], fun h16 => by rw [h, h16]⟩

/-- Witness for `getROMSizeBytes_legacy` at a concrete record with
`ROMSize = 0x10`. -/
theorem getROMSizeBytes_legacy_witness :
    ({ biExt with ROMSize := 0x10 } : BIOSInformation).GetROMSizeBytes
      = 1114112 :=
  (getROMSizeBytes_legacy _ (by decide)).2.2 (by decide)

/-- **C5** For every raw record whose type tag is not the
BIOS-Information tag 0, decode fails with `WrongType` and returns no
record. -/
theorem newBIOSInformation_wrongType (resolve : Nat → String) (t : Table)
    (htyp : t.typ ≠ TableTypeBIOSInformation) :
    NewBIOSInformation resolve t = .error .WrongType := by
  unfold NewBIOSInformation
  rw [if_pos htyp]

/-- Witness for `newBIOSInformation_wrongType` at a concrete record of
type 1. -/
theorem newBIOSInformation_wrongType_witness :
    NewBIOSInformation resolve0 ⟨1, 0, []⟩ = .error .WrongType :=
  newBIOSInformation_wrongType resolve0 ⟨1, 0, []⟩ (by decide)

/-- **C4** counterexample: a raw record of declared length 0 (< 0x12) but
type tag 1 fails with `WrongType`, not `TruncatedRecord` — the type
check precedes the length check. -/
theorem newBIOSInformation_short_wrongType_cex :
    (Table.Len ⟨1, 0, []⟩ < 0x12) ∧
    NewBIOSInformation resolve0 ⟨1, 0, []⟩ ≠ .error .TruncatedRecord := by
  constructor
  · decide
  · simp [NewBIOSInformation, TableTypeBIOSInformation]

/-- **C4** (amended) For every raw record of the BIOS-Information type
tag whose declared length is below 0x12 bytes, decode fails with
`TruncatedRecord` and returns no record. -/
theorem newBIOSInformation_truncated (resolve : Nat → String) (t : Table)
    (htyp : t.typ = TableTypeBIOSInformation) (hlen : t.Len < 0x12) :
    NewBIOSInformation resolve t = .error .TruncatedRecord := by
  unfold NewBIOSInformation
  rw [if_neg (by simp [htyp]), if_pos hlen]

/-- Witness for `newBIOSInformation_truncated` at a concrete record of
type 0 and length 4. -/
theorem newBIOSInformation_truncated_witness :
    NewBIOSInformation resolve0 ⟨0, 0, [0, 4, 0, 0]⟩
      = .error .TruncatedRecord :=
  newBIOSInformation_truncated resolve0 _ (by decide) (by decide)

/-- A conditional one-element suffix, pulled out of the conditional. -/
theorem ite_append_singleton {α : Type} (c : Prop) [Decidable c]
    (l : List α) (x : α) :
    (if c then l ++ [x] else l) = l ++ (if c then [x] else []) := by
  split <;> simp

/-- A conditional one-element prefix, rewritten as a conditional cons. -/
theorem ite_singleton_append {α : Type} (c : Prop) [Decidable c] (x : α)
    (r : List α) :
    (if c then [x] else []) ++ r = if c then x :: r else r := by
  split <;> simp

/-- `List.map Prod.snd` pushed under a conditional cons. -/
theorem map_snd_ite_cons {α β : Type} (c : Prop) [Decidable c] (p : α × β)
    (l : List (α × β)) :
    List.map Prod.snd (if c then p :: l else l) =
      if c then p.2 :: List.map Prod.snd l else List.map Prod.snd l := by
  split <;> simp

/-- The source's if-chain for the primary characteristics vector agrees
with the spec-ordered table rendering. -/
theorem charLines_eq_renderTable (v : Nat) :
    charLines v = renderTable charTable v := by
  simp only [charLines, ite_append_singleton, List.append_nil,
    List.nil_append]
  simp only [List.append_assoc]
  simp only [ite_singleton_append]
  simp only [renderTable, charTable, List.filter_cons, List.filter_nil,
    map_snd_ite_cons, List.map_nil]

/-- The source's if-chain for extension byte 1 agrees with the
spec-ordered table rendering. -/
theorem ext1Lines_eq_renderTable (v : Nat) :
    ext1Lines v = renderTable ext1Table v := by
  simp only [ext1Lines, ite_append_singleton, List.append_nil,
    List.nil_append]
  simp only [List.append_assoc]
  simp only [ite_singleton_append]
  simp only [renderTable, ext1Table, List.filter_cons, List.filter_nil,
    map_snd_ite_cons, List.map_nil]

/-- The source's if-chain for extension byte 2 agrees with the
spec-ordered table rendering. -/
theorem ext2Lines_eq_renderTable (v : Nat) :
    ext2Lines v = renderTable ext2Table v := by
  simp only [ext2Lines, ite_append_singleton, List.append_nil,
    List.nil_append]
  simp only [List.append_assoc]
  simp only [ite_singleton_append]
  simp only [renderTable, ext2Table, List.filter_cons, List.filter_nil,
    map_snd_ite_cons, List.map_nil]

/-- **C6** Each flag renderer emits the descriptions of set defined bits
exactly as the spec-ordered table prescribes, with the table's bit
positions running from least-significant to most-significant (0, 1, 2,
…); being a pure function of the vector, the output is deterministic.
In particular bits 4 and 7 yield the ISA description before the PCI
description. -/
theorem flagRenderers_ordered :
    (∀ v, charLines v = renderTable charTable v) ∧
    (∀ v, ext1Lines v = renderTable ext1Table v) ∧
    (∀ v, ext2Lines v = renderTable ext2Table v) ∧
    charTable.map Prod.fst = List.range 32 ∧
    ext1Table.map Prod.fst = List.range 8 ∧
    ext2Table.map Prod.fst = List.range 5 ∧
    charLines ((1 <<< 4) ||| (1 <<< 7)) =
      ["\t\tISA is supported", "\t\tPCI is supported"] :=
  ⟨charLines_eq_renderTable, ext1Lines_eq_renderTable,
   ext2Lines_eq_renderTable, by decide, by decide, by decide, by decide⟩

/-- `v &&& (1 <<< k)` vanishes when bit `k` of `v` is clear. -/
theorem and_shift_eq_zero (v k : Nat) (h : v.testBit k = false) :
    v &&& (1 <<< k) = 0 := by
  rw [Nat.one_shiftLeft, Nat.and_two_pow, h]
  simp

/-- A table rendering is empty when every tested bit is masked out. -/
theorem renderTable_eq_nil (tbl : List (Nat × String)) (v : Nat)
    (h : ∀ p ∈ tbl, v &&& (1 <<< p.1) = 0) :
    renderTable tbl v = [] := by
  unfold renderTable
  have hfil : tbl.filter (fun p => v &&& (1 <<< p.1) != 0) = [] := by
    rw [List.filter_eq_nil_iff]
    intro p hp
    simp [h p hp]
  rw [hfil]
  rfl

/-- **C7** A flag vector in which no spec-defined bit is set renders to
the empty line list: the zero vector for all three renderers, and any
characteristics vector whose set bits all lie at the undefined positions
32–63 (more generally, at any position ≥ 32). -/
theorem flagRenderers_empty :
    charLines 0 = [] ∧ ext1Lines 0 = [] ∧ ext2Lines 0 = [] ∧
    (∀ v : Nat, (∀ k, k < 32 → v.testBit k = false) → charLines v = []) ∧
    (∀ v : Nat, (∀ k, k < 8 → v.testBit k = false) → ext1Lines v = []) ∧
    (∀ v : Nat, (∀ k, k < 5 → v.testBit k = false) → ext2Lines v = []) := by
  have hchar : ∀ p ∈ charTable, p.1 < 32 := by decide
  have hext1 : ∀ p ∈ ext1Table, p.1 < 8 := by decide
  have hext2 : ∀ p ∈ ext2Table, p.1 < 5 := by decide
  refine ⟨by decide, by decide, by decide, ?_, ?_, ?_⟩
  · intro v h
    rw [charLines_eq_renderTable]
    exact renderTable_eq_nil _ v fun p hp =>
      and_shift_eq_zero v p.1 (h p.1 (hchar p hp))
  · intro v h
    rw [ext1Lines_eq_renderTable]
    exact renderTable_eq_nil _ v fun p hp =>
      and_shift_eq_zero v p.1 (h p.1 (hext1 p hp))
  · intro v h
    rw [ext2Lines_eq_renderTable]
    exact renderTable_eq_nil _ v fun p hp =>
      and_shift_eq_zero v p.1 (h p.1 (hext2 p hp))

/-- Witness for `flagRenderers_empty`: the 64-bit vector with exactly
bits 32 and 63 set renders to no lines. -/
theorem flagRenderers_empty_witness :
    charLines (2 ^ 32 + 2 ^ 63) = [] :=
  flagRenderers_empty.2.2.2.1 (2 ^ 32 + 2 ^ 63) (by decide)

/-- The ROM-size line is never a BIOS-revision line. -/
theorem romSizeLine_isBiosRevisionLine (bs : Nat) :
    (romSizeLine bs).isBiosRevisionLine = false := by
  unfold romSizeLine
  split_ifs <;> rfl

/-- The ROM-size line is never a starting-address line. -/
theorem romSizeLine_isAddressLine (bs : Nat) :
    (romSizeLine bs).isAddressLine = false := by
  unfold romSizeLine
  split_ifs <;> rfl

/-- The ROM-size line is never a runtime-size line. -/
theorem romSizeLine_isRuntimeSizeLine (bs : Nat) :
    (romSizeLine bs).isRuntimeSizeLine = false := by
  unfold romSizeLine
  split_ifs <;> rfl

/-- The ROM-size line is a ROM-size line in every branch. -/
theorem romSizeLine_isRomSizeLine (bs : Nat) :
    (romSizeLine bs).isRomSizeLine = true := by
  unfold romSizeLine
  split_ifs <;> rfl

/-- **C8** The summary contains a BIOS-revision line if and only if the
record length is at least 0x16 and `SystemBIOSMajorRelease ≠ 0xff`: a
record of length 0x15 never produces the line whatever its revision
bytes are, and a record of length ≥ 0x16 with major byte 0xff also
suppresses it. -/
theorem summary_biosRevision_iff (bi : BIOSInformation) :
    (bi.summaryLines.any SummaryLine.isBiosRevisionLine) = true ↔
      0x16 ≤ bi.Len ∧ bi.SystemBIOSMajorRelease ≠ 0xff := by
  unfold BIOSInformation.summaryLines
  split_ifs with h1 h2 h3 <;>
    · simp only [List.any_append, List.any_cons, List.any_nil,
        romSizeLine_isBiosRevisionLine]
      simp_all [SummaryLine.isBiosRevisionLine]

/-- Go `int` runtime-size arithmetic agrees with the spec's natural
number formula for a 16-bit segment value. -/
theorem runtimeKB_cast (s : Nat) (h : s < 0x10000) :
    ((0x10000 - (s : Int)) <<< (4 : Int)) / 1024 =
      ((((0x10000 - s) <<< 4) / 1024 : Nat) : Int) := by
  have h1 : (0x10000 - (s : Int)) = ((0x10000 - s : Nat) : Int) := by omega
  rw [h1, show (4 : Int) = ((4 : Nat) : Int) by norm_num,
    Int.shiftLeft_coe_nat]
  norm_cast

/-- **C9** The summary contains the starting-address line and the
runtime-size line if and only if `StartingAddressSegment ≠ 0`, and the
reported runtime size equals `((0x10000 − segment) <<< 4) / 1024`
kilobytes. -/
theorem summary_address_runtime (bi : BIOSInformation)
    (hseg : bi.StartingAddressSegment < 0x10000) :
    ((bi.summaryLines.any SummaryLine.isAddressLine) = true ↔
      bi.StartingAddressSegment ≠ 0) ∧
    ((bi.summaryLines.any SummaryLine.isRuntimeSizeLine) = true ↔
      bi.StartingAddressSegment ≠ 0) ∧
    (bi.StartingAddressSegment ≠ 0 →
      SummaryLine.runtimeSize
          ((((0x10000 - bi.StartingAddressSegment) <<< 4) / 1024 : Nat) : Int)
        ∈ bi.summaryLines) := by
  refine ⟨?_, ?_, ?_⟩
  · unfold BIOSInformation.summaryLines
    split_ifs <;>
      · simp only [List.any_append, List.any_cons, List.any_nil,
          romSizeLine_isAddressLine]
        simp_all [SummaryLine.isAddressLine]
  · unfold BIOSInformation.summaryLines
    split_ifs <;>
      · simp only [List.any_append, List.any_cons, List.any_nil,
          romSizeLine_isRuntimeSizeLine]
        simp_all [SummaryLine.isRuntimeSizeLine]
  · intro hne
    rw [← runtimeKB_cast bi.StartingAddressSegment hseg]
    unfold BIOSInformation.summaryLines
    split_ifs <;> simp_all

/-- Witness for `summary_address_runtime` at the concrete record
`biExt` (segment 0xE000, runtime size 128 kB). -/
theorem summary_address_runtime_witness :
    SummaryLine.runtimeSize
        ((((0x10000 - biExt.StartingAddressSegment) <<< 4) / 1024 : Nat) : Int)
      ∈ biExt.summaryLines :=
  (summary_address_runtime biExt (by decide)).2.2 (by decide)

/-- **C10** The summary's ROM-size line displays the byte count from
`GetROMSizeBytes`, scaled to the largest of bytes / kB / MB / GB whose
displayed value stays at least 1, with 1024-based thresholds and the
value integer-divided by the unit. -/
theorem summary_romSize (bi : BIOSInformation) :
    bi.summaryLines.filter SummaryLine.isRomSizeLine
      = [romSizeLine bi.GetROMSizeBytes] ∧
    ∀ bs : Nat,
      (bs < 1024 → romSizeLine bs = .romSizeB bs) ∧
      (1024 ≤ bs → bs < 1048576 → romSizeLine bs = .romSizeKB (bs / 1024)) ∧
      (1048576 ≤ bs → bs < 1073741824 →
        romSizeLine bs = .romSizeMB (bs / 1048576)) ∧
      (1073741824 ≤ bs → romSizeLine bs = .romSizeGB (bs / 1073741824)) := by
  constructor
  · unfold BIOSInformation.summaryLines
    split_ifs <;>
      · simp only [List.filter_append, List.filter_cons, List.filter_nil,
          romSizeLine_isRomSizeLine]
        simp [SummaryLine.isRomSizeLine]
  · intro bs
    refine ⟨fun h1 => ?_, fun h1 h2 => ?_, fun h1 h2 => ?_, fun h1 => ?_⟩
    · unfold romSizeLine
      rw [if_pos h1]
    · unfold romSizeLine
      rw [if_neg (by omega), if_pos (by omega)]
    · unfold romSizeLine
      rw [if_neg (by omega), if_neg (by omega), if_pos (by omega),
        Nat.div_div_eq_div_mul]
    · unfold romSizeLine
      rw [if_neg (by omega), if_neg (by omega), if_neg (by omega),
        Nat.div_div_eq_div_mul, Nat.div_div_eq_div_mul]

/-- Witness for `summary_romSize`: 16 GiB of ROM is displayed in the GB
unit as 16 GB. -/
theorem summary_romSize_witness :
    romSizeLine 17179869184 = SummaryLine.romSizeGB (17179869184 / 1073741824) :=
  ((summary_romSize biExt).2 17179869184).2.2.2 (by decide)

end Smbios
